import Mathlib

/-!
# Verification of the Video Annotation Pipeline (`app/processor.py`)

Shallow embedding of `process_video` from `app/processor.py`.

Modelling choices:
* Machine floats are idealised as real numbers (`ℝ`).
* The MediaPipe Pose estimator is an external black box: the input video is
  modelled as the list of per-frame outcomes the estimator would produce,
  `FrameEvent`: either a detection result (`detect`, carrying
  `Option KeypointSet`, `none` meaning "no pose detected") or an exception
  raised during the frame's processing (`raiseExc`, e.g. an inference error).
* A `KeypointSet` is the list of normalized `(x, y)` landmark coordinates
  extracted on line 103 of `processor.py`.
* Environment facts — whether the input path is an existing file, whether the
  decoder (`cv2.VideoCapture`) opens, whether the encoder (`cv2.VideoWriter`)
  opens, and the frame rate the source reports — are boolean/real parameters.
* Resource acquisition and release (`cap`, `writer`, `pose`) are tracked as
  boolean flags in the result; an "opened" encoder corresponds to the output
  file having been created at `outputPath`.
-/

namespace VideoAnalyzer

/-- A landmark's normalized 2D coordinates, `(lm.x, lm.y)` (processor.py:103). -/
abbrev Keypoint : Type := ℝ × ℝ

/-- Ordered sequence of landmark coordinates for one detected pose. -/
abbrev KeypointSet : Type := List Keypoint

/-- Per-landmark Euclidean (L2) displacement:
`np.linalg.norm(landmarks - prev_landmarks, axis=1)` applied to one row
(processor.py:106). -/
noncomputable def euclid (p q : Keypoint) : ℝ :=
  Real.sqrt ((p.1 - q.1) ^ 2 + (p.2 - q.2) ^ 2)

/-- `left_idx = [11, 13, 15, 23, 25, 27]` (processor.py:110). -/
def left_idx : List ℕ := [11, 13, 15, 23, 25, 27]

/-- `right_idx = [12, 14, 16, 24, 26, 28]` (processor.py:111). -/
def right_idx : List ℕ := [12, 14, 16, 24, 26, 28]

/-- `diff[idxs].sum()`: the sum of the entries of `diff` at the given index
list (processor.py:112-113).  Indices are in range for MediaPipe's 33-landmark
output; out-of-range indices default to `0`. -/
def idxSum (diff : List ℝ) (idxs : List ℕ) : ℝ :=
  (idxs.map (fun i => diff.getD i 0)).sum

/-- `round(x, 5)`: rounding to five decimal places (processor.py:132). -/
noncomputable def round5 (x : ℝ) : ℝ :=
  ((round (x * 100000) : ℤ) : ℝ) / 100000

/-- The mutable state threaded through the frame loop of `process_video`
(processor.py:73-79 and the loop body). -/
structure LoopState where
  framesWithPose : ℕ
  prev : Option KeypointSet
  movement : ℝ
  totalPoints : ℕ
  leftMovement : ℝ
  rightMovement : ℝ
  frameIdx : ℕ
  written : ℕ

/-- Initial loop state (processor.py:67-79): all counters zero, no previous
keypoints. -/
def initState : LoopState :=
  { framesWithPose := 0, prev := none, movement := 0, totalPoints := 0
    leftMovement := 0, rightMovement := 0, frameIdx := 0, written := 0 }

/-- The returned metrics dictionary (processor.py:67-72, finalized at 129-133).
`dominant_limb = none` models the Python `None`. -/
structure Metrics where
  frames_processed : ℕ
  frames_with_pose : ℕ
  avg_movement_intensity : ℝ
  dominant_limb : Option String

/-- What happens when one frame is read and processed: either the pose
estimator returns a result (`none` = no pose detected), or an exception is
raised while handling the frame (e.g. an inference failure). -/
inductive FrameEvent where
  | detect (result : Option KeypointSet)
  | raiseExc

/-- The body of one loop iteration after the frame was read and the
`max_frames` check passed (processor.py:90-122): on detection, increment
`frames_with_pose`, accumulate displacement against `prev_landmarks` when the
shapes match, and store the current landmarks; in every case write the frame.
-/
noncomputable def stepFrame (s : LoopState) (det : Option KeypointSet) : LoopState :=
  match det with
  | none => { s with written := s.written + 1 }
  | some lms =>
      let s1 := { s with framesWithPose := s.framesWithPose + 1 }
      let s2 :=
        match s1.prev with
        | none => s1
        | some p =>
            if lms.length = p.length then
              let diff := List.zipWith euclid lms p
              { s1 with
                movement := s1.movement + diff.sum
                totalPoints := s1.totalPoints + diff.length
                leftMovement := s1.leftMovement + idxSum diff left_idx
                rightMovement := s1.rightMovement + idxSum diff right_idx }
            else s1
      { s2 with prev := some lms, written := s2.written + 1 }

/-- The `max_frames` early-exit test `if max_frames and frame_idx > max_frames`
(processor.py:87): Python truthiness makes `None` and `0` both mean "no cap".
-/
def capBreak (maxFrames : Option ℕ) (frameIdx : ℕ) : Bool :=
  match maxFrames with
  | none => false
  | some m => m != 0 && decide (m < frameIdx)

/-- The frame loop (processor.py:82-122).  Returns the final state together
with `true` when the loop terminated normally (end of stream or `max_frames`
reached) and `false` when an exception aborted it mid-loop. -/
noncomputable def runLoop (maxFrames : Option ℕ) :
    List FrameEvent → LoopState → LoopState × Bool
  | [], s => (s, true)
  | e :: rest, s =>
      let s' : LoopState := { s with frameIdx := s.frameIdx + 1 }
      if capBreak maxFrames s'.frameIdx then (s', true)
      else
        match e with
        | .raiseExc => (s', false)
        | .detect det => runLoop maxFrames rest (stepFrame s' det)

/-- Metrics finalization (processor.py:129-133): `frames_processed` is the
number of written frames; when `total_points > 0` the average intensity is
`round(movement_accumulator / total_points, 5)` and the dominant limb is
`"left"` iff `left_movement > right_movement` (ties give `"right"`);
otherwise the initial values `0.0` and `None` stand. -/
noncomputable def finalize (s : LoopState) : Metrics :=
  { frames_processed := s.written
    frames_with_pose := s.framesWithPose
    avg_movement_intensity :=
      if 0 < s.totalPoints then round5 (s.movement / (s.totalPoints : ℝ)) else 0
    dominant_limb :=
      if 0 < s.totalPoints then
        some (if s.leftMovement > s.rightMovement then "left" else "right")
      else none }

/-- `out_fps = float(target_fps) if target_fps else in_fps` with
`in_fps = cap.get(cv2.CAP_PROP_FPS) or 30.0` (processor.py:48,52): Python
truthiness, so a `None` or zero `target_fps` falls through to the source
rate, and a zero source rate falls back to `30.0`. -/
noncomputable def outFpsCalc (srcFps : ℝ) (targetFps : Option ℝ) : ℝ :=
  let inFps := if srcFps = 0 then 30 else srcFps
  match targetFps with
  | some t => if t ≠ 0 then t else inFps
  | none => inFps

/-- The errors `process_video` can raise: `FileNotFoundError`
(processor.py:42), `IOError` on decoder open (46) or encoder open (59), and
an exception propagating out of the frame loop. -/
inductive PVErr where
  | notFound
  | openInput
  | openOutput
  | midLoop
  deriving Repr, DecidableEq

/-- The outcome of a call to `process_video` (with `return_metrics=True`),
together with the fate of its three scoped resources.  `writerOpened` is also
the witness that an output file was created at `outputPath`: `cv2.VideoWriter`
creates the file when it opens. -/
structure PVResult where
  result : Except PVErr (ℕ × ℝ × Metrics)
  capOpened : Bool
  capReleased : Bool
  writerOpened : Bool
  writerReleased : Bool
  poseOpened : Bool
  poseClosed : Bool

/-- Shallow embedding of `process_video` (processor.py:20-137).
`inputExists` models `os.path.isfile(input_path)`, `capOk` models
`cap.isOpened()`, `writerOk` models `writer.isOpened()`, `srcFps` the
source-reported frame rate, and `frames` the per-frame events of the video.
The `try/finally` (processor.py:81-127) releases the pose session, the
writer and the capture on both loop outcomes. -/
noncomputable def process_video (inputExists capOk writerOk : Bool)
    (srcFps : ℝ) (targetFps : Option ℝ) (maxFrames : Option ℕ)
    (frames : List FrameEvent) : PVResult :=
  if !inputExists then
    ⟨.error .notFound, false, false, false, false, false, false⟩
  else if !capOk then
    ⟨.error .openInput, false, false, false, false, false, false⟩
  else if !writerOk then
    ⟨.error .openOutput, true, true, false, false, false, false⟩
  else
    let outFps := outFpsCalc srcFps targetFps
    let r := runLoop maxFrames frames initState
    if r.2 then
      ⟨.ok (r.1.written, outFps, finalize r.1), true, true, true, true, true, true⟩
    else
      ⟨.error .midLoop, true, true, true, true, true, true⟩

/-- The metrics of a successful call, `none` on a failed one. -/
noncomputable def metricsOf (r : PVResult) : Option Metrics :=
  match r.result with
  | .ok (_, _, m) => some m
  | .error _ => none

/-- The frame count of a successful call, `none` on a failed one. -/
noncomputable def writtenOf (r : PVResult) : Option ℕ :=
  match r.result with
  | .ok (w, _, _) => some w
  | .error _ => none

/-- The output frame rate of a successful call, `none` on a failed one. -/
noncomputable def outFpsOf (r : PVResult) : Option ℝ :=
  match r.result with
  | .ok (_, f, _) => some f
  | .error _ => none

/-! ## Helper lemmas about the loop body and the loop -/

/-- Every processed frame is written: the loop body always increments
`written` by one (processor.py:121-122 run unconditionally). -/
theorem stepFrame_written (s : LoopState) (det : Option KeypointSet) :
    (stepFrame s det).written = s.written + 1 := by
  rcases det with _ | lms
  · rfl
  · rcases hp : s.prev with _ | p
    · simp [stepFrame, hp]
    · by_cases h : lms.length = p.length <;> simp [stepFrame, hp, h]

/-- The loop body increments `frames_with_pose` by at most one. -/
theorem stepFrame_pose_le (s : LoopState) (det : Option KeypointSet) :
    (stepFrame s det).framesWithPose ≤ s.framesWithPose + 1 := by
  rcases det with _ | lms
  · exact Nat.le_succ_of_le le_rfl
  · rcases hp : s.prev with _ | p
    · simp [stepFrame, hp]
    · by_cases h : lms.length = p.length <;> simp [stepFrame, hp, h]

/-- The loop body never touches `frame_idx` (it is incremented by the loop
driver before the body runs). -/
theorem stepFrame_frameIdx (s : LoopState) (det : Option KeypointSet) :
    (stepFrame s det).frameIdx = s.frameIdx := by
  rcases det with _ | lms
  · rfl
  · rcases hp : s.prev with _ | p
    · simp [stepFrame, hp]
    · by_cases h : lms.length = p.length <;> simp [stepFrame, hp, h]

/-- A video whose every frame yields a detection outcome (no exception)
drives the loop to a normal termination. -/
theorem runLoop_detect_ok (maxFrames : Option ℕ) (dets : List (Option KeypointSet))
    (s : LoopState) :
    (runLoop maxFrames (dets.map FrameEvent.detect) s).2 = true := by
  induction dets generalizing s with
  | nil => rfl
  | cons d rest ih =>
      simp only [List.map, runLoop]
      split
      · rfl
      · exact ih _

/-- The `frames_with_pose ≤ written` invariant is preserved by the loop:
`frames_with_pose` is only incremented in an iteration that also writes a
frame. -/
theorem runLoop_pose_le_written (maxFrames : Option ℕ) (frames : List FrameEvent)
    (s : LoopState) (h : s.framesWithPose ≤ s.written) :
    (runLoop maxFrames frames s).1.framesWithPose
      ≤ (runLoop maxFrames frames s).1.written := by
  induction frames generalizing s with
  | nil => simpa [runLoop]
  | cons e rest ih =>
      simp only [runLoop]
      split
      · simpa
      · match e with
        | .raiseExc => simpa
        | .detect det =>
            apply ih
            rw [stepFrame_written]
            calc (stepFrame { s with frameIdx := s.frameIdx + 1 } det).framesWithPose
                ≤ s.framesWithPose + 1 := stepFrame_pose_le _ det
              _ ≤ s.written + 1 := Nat.succ_le_succ h

/-- With a nonzero cap `m` and no exceptions, starting from a state whose
frame index has not yet passed the cap, the loop writes exactly
`min (m - frameIdx)` and `(number of remaining frames)` more frames. -/
theorem runLoop_written_cap (m : ℕ) (hm : m ≠ 0) (dets : List (Option KeypointSet))
    (s : LoopState) (hk : s.frameIdx ≤ m) :
    (runLoop (some m) (dets.map FrameEvent.detect) s).1.written
      = s.written + min (m - s.frameIdx) dets.length := by
  induction dets generalizing s with
  | nil => simp [runLoop]
  | cons d rest ih =>
      simp only [List.map, runLoop]
      by_cases hbr : capBreak (some m) (s.frameIdx + 1) = true
      · have hlt : m < s.frameIdx + 1 := by
          simp [capBreak, hm] at hbr
          exact hbr
        have hmk : m = s.frameIdx := by omega
        rw [if_pos hbr]
        show s.written = s.written + min (m - s.frameIdx) (d :: rest).length
        simp only [List.length_cons]
        omega
      · have hle : m ≥ s.frameIdx + 1 := by
          by_contra hcon
          exact hbr (by simp [capBreak, hm]; omega)
        rw [if_neg hbr]
        have hrec := ih (stepFrame { s with frameIdx := s.frameIdx + 1 } d)
          (by rw [stepFrame_frameIdx]; show s.frameIdx + 1 ≤ m; omega)
        rw [hrec, stepFrame_written, stepFrame_frameIdx]
        show s.written + 1 + min (m - (s.frameIdx + 1)) rest.length
          = s.written + min (m - s.frameIdx) (d :: rest).length
        simp only [List.length_cons]
        omega

/-- Success-path characterization: on an existing, decodable input with a
working encoder and a frame stream free of exceptions, `process_video`
returns the written-frame count, the computed output fps and the finalized
metrics, with every resource opened and released. -/
theorem process_video_detect_eq (srcFps : ℝ) (targetFps : Option ℝ)
    (maxFrames : Option ℕ) (dets : List (Option KeypointSet)) :
    process_video true true true srcFps targetFps maxFrames (dets.map FrameEvent.detect)
      = ⟨.ok ((runLoop maxFrames (dets.map FrameEvent.detect) initState).1.written,
              outFpsCalc srcFps targetFps,
              finalize (runLoop maxFrames (dets.map FrameEvent.detect) initState).1),
         true, true, true, true, true, true⟩ := by
  simp [process_video, runLoop_detect_ok]

/-! ## Claim theorems -/

/-- C8 counterexample: an input path referencing an existing but unreadable
file is covered by the claim's condition ("does not reference an existing,
readable file"), so the claim demands `FileNotFoundError` there; but the
code's only guard is `os.path.isfile` (processor.py:41), which such a path
passes (`inputExists = true`), and the decoder then fails to open it
(`capOk = false`), raising `IOError` (processor.py:45-46) — a different
error than the claimed `FileNotFoundError`. -/
theorem notFound_claim_counterexample :
    (process_video true false false 0 none none []).result
        = Except.error PVErr.openInput
    ∧ PVErr.openInput ≠ PVErr.notFound :=
  ⟨rfl, by decide⟩

/-- C8 (amended): when `inputPath` does not reference an existing file
(`os.path.isfile` fails), `process_video` fails with `FileNotFoundError`
(processor.py:41-42) before any resource is acquired; when the path
references an existing file that the decoder cannot open (e.g. an unreadable
or undecodable one), it instead fails with `IOError` (processor.py:45-46).
In both cases the failure happens before the encoder is opened, so no output
file is created at `outputPath`. -/
theorem input_failure_no_output (capOk writerOk : Bool) (srcFps : ℝ)
    (targetFps : Option ℝ) (maxFrames : Option ℕ) (frames : List FrameEvent) :
    (process_video false capOk writerOk srcFps targetFps maxFrames frames
        = ⟨.error .notFound, false, false, false, false, false, false⟩)
    ∧ (process_video true false writerOk srcFps targetFps maxFrames frames
        = ⟨.error .openInput, false, false, false, false, false, false⟩) :=
  ⟨rfl, rfl⟩

/-- C9: on every exit path of `process_video` — missing input, decoder open
failure, encoder open failure, an exception mid-loop, or normal completion —
each of the three scoped resources (decoder `cap`, encoder `writer`, pose
session) is released exactly when it was acquired: the `try/finally` block
(processor.py:124-127) covers the loop, and the encoder-open failure path
releases the already-opened decoder (processor.py:58). -/
theorem resources_released (inputExists capOk writerOk : Bool) (srcFps : ℝ)
    (targetFps : Option ℝ) (maxFrames : Option ℕ) (frames : List FrameEvent) :
    ((process_video inputExists capOk writerOk srcFps targetFps maxFrames frames).capReleased
        = (process_video inputExists capOk writerOk srcFps targetFps maxFrames frames).capOpened)
    ∧ ((process_video inputExists capOk writerOk srcFps targetFps maxFrames frames).writerReleased
        = (process_video inputExists capOk writerOk srcFps targetFps maxFrames frames).writerOpened)
    ∧ ((process_video inputExists capOk writerOk srcFps targetFps maxFrames frames).poseClosed
        = (process_video inputExists capOk writerOk srcFps targetFps maxFrames frames).poseOpened) := by
  cases inputExists <;> cases capOk <;> cases writerOk <;> simp [process_video]
  rcases hr : runLoop maxFrames frames initState with ⟨s, ok⟩
  cases ok <;> simp [hr]

/-- C6: whenever `process_video` completes without error, the returned
metrics' `frames_processed` equals the number of frames written to the
output stream (processor.py:130). -/
theorem frames_processed_eq_written (inputExists capOk writerOk : Bool) (srcFps : ℝ)
    (targetFps : Option ℝ) (maxFrames : Option ℕ) (frames : List FrameEvent)
    (w : ℕ) (f : ℝ) (m : Metrics)
    (h : (process_video inputExists capOk writerOk srcFps targetFps maxFrames frames).result
          = .ok (w, f, m)) :
    m.frames_processed = w := by
  cases inputExists <;> cases capOk <;> cases writerOk <;> simp [process_video] at h
  rcases hr : runLoop maxFrames frames initState with ⟨s, ok⟩
  rw [hr] at h
  cases ok
  · simp at h
  · simp at h
    obtain ⟨hw, -, hm⟩ := h
    rw [← hm, ← hw]
    rfl


/-- C4 counterexample: with a source rate of 25 and `target_fps = -5`
(provided but not `> 0`), the claim requires the returned output frame rate
to equal the source's reported rate 25; the code instead uses Python
truthiness (`float(target_fps) if target_fps else in_fps`, processor.py:52)
and returns `-5`. -/
theorem outFps_claim_counterexample :
    outFpsOf (process_video true true true 25 (some (-5)) none []) = some (-5)
    ∧ ((-5 : ℝ) ≠ 25) := by
  constructor
  · simp [process_video, runLoop, outFpsOf, outFpsCalc]
  · norm_num

/-- C4 (amended): the returned output frame rate equals `targetFrameRate`
whenever it is provided and nonzero (Python truthiness, not `> 0`);
otherwise it equals the source's reported rate, falling back to `30.0` when
the source reports a zero rate (processor.py:48,52). -/
theorem outFps_spec (srcFps : ℝ) (targetFps : Option ℝ) (maxFrames : Option ℕ)
    (dets : List (Option KeypointSet)) :
    outFpsOf (process_video true true true srcFps targetFps maxFrames
        (dets.map FrameEvent.detect))
      = some (match targetFps with
              | some t => if t ≠ 0 then t else if srcFps = 0 then 30 else srcFps
              | none => if srcFps = 0 then 30 else srcFps) := by
  rw [process_video_detect_eq]
  cases targetFps <;> rfl

/-- C1: on a completed run, if `total_points > 0` at the end of the frame
loop then the returned metrics carry
`avg_movement_intensity = round(movement_accumulator / total_points, 5)` and
`dominant_limb = "left"` when `left_movement > right_movement`, else
`"right"` (strict comparison: a tie yields `"right"`); if `total_points = 0`
the initial `0.0` and absent (`None`) dominant limb are returned
(processor.py:129-133). -/
theorem finalization_formula (srcFps : ℝ) (targetFps : Option ℝ) (maxFrames : Option ℕ)
    (dets : List (Option KeypointSet)) :
    metricsOf (process_video true true true srcFps targetFps maxFrames
        (dets.map FrameEvent.detect))
      = some
        { frames_processed :=
            (runLoop maxFrames (dets.map FrameEvent.detect) initState).1.written
          frames_with_pose :=
            (runLoop maxFrames (dets.map FrameEvent.detect) initState).1.framesWithPose
          avg_movement_intensity :=
            if 0 < (runLoop maxFrames (dets.map FrameEvent.detect) initState).1.totalPoints then
              round5 ((runLoop maxFrames (dets.map FrameEvent.detect) initState).1.movement /
                ((runLoop maxFrames (dets.map FrameEvent.detect) initState).1.totalPoints : ℝ))
            else 0
          dominant_limb :=
            if 0 < (runLoop maxFrames (dets.map FrameEvent.detect) initState).1.totalPoints then
              some (if (runLoop maxFrames (dets.map FrameEvent.detect) initState).1.leftMovement >
                      (runLoop maxFrames (dets.map FrameEvent.detect) initState).1.rightMovement
                    then "left" else "right")
            else none } := by
  rw [process_video_detect_eq]
  rfl

/-- C3: on a completed run the returned `dominant_limb` is `"left"`,
`"right"` or absent, and it is absent exactly when no displacement samples
were accumulated during the run (`total_points = 0` at the end of the loop;
processor.py:131-133). -/
theorem dominant_limb_cases (srcFps : ℝ) (targetFps : Option ℝ) (maxFrames : Option ℕ)
    (dets : List (Option KeypointSet)) (m : Metrics)
    (h : metricsOf (process_video true true true srcFps targetFps maxFrames
          (dets.map FrameEvent.detect)) = some m) :
    (m.dominant_limb = none ∨ m.dominant_limb = some "left" ∨ m.dominant_limb = some "right")
    ∧ (m.dominant_limb = none
        ↔ (runLoop maxFrames (dets.map FrameEvent.detect) initState).1.totalPoints = 0) := by
  rw [process_video_detect_eq] at h
  simp [metricsOf] at h
  subst h
  by_cases hp : 0 < (runLoop maxFrames (dets.map FrameEvent.detect) initState).1.totalPoints
  · constructor
    · by_cases hlr : (runLoop maxFrames (dets.map FrameEvent.detect) initState).1.leftMovement >
          (runLoop maxFrames (dets.map FrameEvent.detect) initState).1.rightMovement
      · exact Or.inr (Or.inl (by simp [finalize, hp, hlr]))
      · exact Or.inr (Or.inr (by simp [finalize, hp, hlr]))
    · simp [finalize, hp]
      omega
  · constructor
    · exact Or.inl (by simp [finalize, hp])
    · simp [finalize, hp]
      omega

/-- C5: with a positive `max_frames = m`, a run over an exception-free frame
stream writes exactly `min m (number of source frames)` frames — the loop
breaks once the 1-based frame index exceeds `m` (processor.py:87-88) — and
in particular never more than `m`. -/
theorem maxFrames_cap (m : ℕ) (srcFps : ℝ) (targetFps : Option ℝ)
    (dets : List (Option KeypointSet)) (hm : 0 < m) :
    writtenOf (process_video true true true srcFps targetFps (some m)
        (dets.map FrameEvent.detect))
      = some (min m dets.length)
    ∧ min m dets.length ≤ m := by
  refine ⟨?_, Nat.min_le_left _ _⟩
  rw [process_video_detect_eq]
  show some ((runLoop (some m) (dets.map FrameEvent.detect) initState).1.written) = _
  rw [runLoop_written_cap m (Nat.pos_iff_ne_zero.mp hm) dets initState (by simp [initState])]
  simp [initState]

/-- C5 witness: `max_frames = 5` on a 15-frame input writes exactly
`min 5 15 = 5` frames. -/
theorem maxFrames_cap_witness :
    (writtenOf (process_video true true true 10 none (some 5)
        ((List.replicate 15 (none : Option KeypointSet)).map FrameEvent.detect))
      = some (min 5 (List.replicate 15 (none : Option KeypointSet)).length)
    ∧ min 5 (List.replicate 15 (none : Option KeypointSet)).length ≤ 5)
    ∧ min 5 (List.replicate 15 (none : Option KeypointSet)).length = 5 :=
  ⟨maxFrames_cap 5 10 none (List.replicate 15 none) (by decide), by decide⟩

/-- C2: when a pose is detected and the previous frame's keypoints exist
with matching length, the loop body computes one Euclidean (L2) distance per
landmark (`L` of them), adds their sum to the movement accumulator, adds `L`
to `total_points`, and adds the distances at the LEFT/RIGHT index subsets to
the respective side accumulators (processor.py:105-113). -/
theorem stepFrame_accumulates (s : LoopState) (lms p : KeypointSet)
    (hprev : s.prev = some p) (hlen : lms.length = p.length) :
    (List.zipWith euclid lms p).length = lms.length
    ∧ (stepFrame s (some lms)).movement = s.movement + (List.zipWith euclid lms p).sum
    ∧ (stepFrame s (some lms)).totalPoints = s.totalPoints + lms.length
    ∧ (stepFrame s (some lms)).leftMovement
        = s.leftMovement + idxSum (List.zipWith euclid lms p) left_idx
    ∧ (stepFrame s (some lms)).rightMovement
        = s.rightMovement + idxSum (List.zipWith euclid lms p) right_idx := by
  have hL : (List.zipWith euclid lms p).length = lms.length := by
    rw [List.length_zipWith, hlen, Nat.min_self]
  refine ⟨hL, ?_, ?_, ?_, ?_⟩ <;> simp [stepFrame, hprev, hlen, hL]

/-- A 33-landmark keypoint set, as MediaPipe Pose produces. -/
noncomputable def sampleKeys : KeypointSet := List.replicate 33 ((0 : ℝ), (0 : ℝ))

/-- A loop state that has already seen one detected pose. -/
noncomputable def sampleState : LoopState :=
  { framesWithPose := 1, prev := some sampleKeys, movement := 0, totalPoints := 0
    leftMovement := 0, rightMovement := 0, frameIdx := 1, written := 1 }

/-- C2 witness: the accumulation equations at a concrete state holding a
33-landmark previous keypoint set, fed an identical 33-landmark detection. -/
theorem stepFrame_accumulates_witness :
    (List.zipWith euclid sampleKeys sampleKeys).length = sampleKeys.length
    ∧ (stepFrame sampleState (some sampleKeys)).movement
        = sampleState.movement + (List.zipWith euclid sampleKeys sampleKeys).sum
    ∧ (stepFrame sampleState (some sampleKeys)).totalPoints
        = sampleState.totalPoints + sampleKeys.length
    ∧ (stepFrame sampleState (some sampleKeys)).leftMovement
        = sampleState.leftMovement + idxSum (List.zipWith euclid sampleKeys sampleKeys) left_idx
    ∧ (stepFrame sampleState (some sampleKeys)).rightMovement
        = sampleState.rightMovement + idxSum (List.zipWith euclid sampleKeys sampleKeys) right_idx :=
  stepFrame_accumulates sampleState sampleKeys sampleKeys rfl rfl

/-- C7: a frame with no detected pose leaves `prev_landmarks` and every
accumulator unchanged (only the frame is written), so a missed frame does
not reset movement tracking; and a detected pose whose landmark count
differs from the previous one silently skips the displacement comparison —
no accumulator changes and no diagnostic — while still replacing
`prev_landmarks` with the new keypoints (processor.py:93-115). -/
theorem missed_and_mismatch (s : LoopState) (p lms : KeypointSet)
    (hprev : s.prev = some p) (hne : lms.length ≠ p.length) :
    (stepFrame s none).prev = s.prev
    ∧ (stepFrame s none).movement = s.movement
    ∧ (stepFrame s none).totalPoints = s.totalPoints
    ∧ (stepFrame s none).leftMovement = s.leftMovement
    ∧ (stepFrame s none).rightMovement = s.rightMovement
    ∧ (stepFrame s none).framesWithPose = s.framesWithPose
    ∧ (stepFrame s (some lms)).movement = s.movement
    ∧ (stepFrame s (some lms)).totalPoints = s.totalPoints
    ∧ (stepFrame s (some lms)).leftMovement = s.leftMovement
    ∧ (stepFrame s (some lms)).rightMovement = s.rightMovement
    ∧ (stepFrame s (some lms)).prev = some lms := by
  refine ⟨rfl, rfl, rfl, rfl, rfl, rfl, ?_, ?_, ?_, ?_, ?_⟩ <;>
    simp [stepFrame, hprev, hne]

/-- C7 witness: the invariants at a concrete state whose previous keypoint
set has 33 landmarks, fed a single-landmark detection (a length mismatch). -/
theorem missed_and_mismatch_witness :
    (stepFrame sampleState none).prev = sampleState.prev
    ∧ (stepFrame sampleState none).movement = sampleState.movement
    ∧ (stepFrame sampleState none).totalPoints = sampleState.totalPoints
    ∧ (stepFrame sampleState none).leftMovement = sampleState.leftMovement
    ∧ (stepFrame sampleState none).rightMovement = sampleState.rightMovement
    ∧ (stepFrame sampleState none).framesWithPose = sampleState.framesWithPose
    ∧ (stepFrame sampleState (some [((0 : ℝ), (0 : ℝ))])).movement = sampleState.movement
    ∧ (stepFrame sampleState (some [((0 : ℝ), (0 : ℝ))])).totalPoints = sampleState.totalPoints
    ∧ (stepFrame sampleState (some [((0 : ℝ), (0 : ℝ))])).leftMovement = sampleState.leftMovement
    ∧ (stepFrame sampleState (some [((0 : ℝ), (0 : ℝ))])).rightMovement = sampleState.rightMovement
    ∧ (stepFrame sampleState (some [((0 : ℝ), (0 : ℝ))])).prev = some [((0 : ℝ), (0 : ℝ))] :=
  missed_and_mismatch sampleState sampleKeys [((0 : ℝ), (0 : ℝ))] rfl (by decide)

/-- C10: whenever `process_video` returns metrics, they satisfy
`frames_with_pose ≤ frames_processed`: the pose counter is only incremented
(processor.py:94) in an iteration that also writes a frame
(processor.py:121-122), so it never exceeds the number of written frames. -/
theorem pose_le_processed (inputExists capOk writerOk : Bool) (srcFps : ℝ)
    (targetFps : Option ℝ) (maxFrames : Option ℕ) (frames : List FrameEvent)
    (m : Metrics)
    (h : metricsOf (process_video inputExists capOk writerOk srcFps targetFps maxFrames frames)
          = some m) :
    m.frames_with_pose ≤ m.frames_processed := by
  cases inputExists <;> cases capOk <;> cases writerOk <;>
    simp [process_video, metricsOf] at h
  have hle := runLoop_pose_le_written maxFrames frames initState (by simp [initState])
  rcases hr : runLoop maxFrames frames initState with ⟨s, ok⟩
  rw [hr] at h hle
  cases ok
  · simp [metricsOf] at h
  · simp [metricsOf] at h
    rw [← h]
    exact hle

/-- C3 witness: a one-frame video with no detected pose yields metrics with
an absent dominant limb, matching zero accumulated displacement samples. -/
theorem dominant_limb_cases_witness :
    ((⟨1, 0, 0, none⟩ : Metrics).dominant_limb = none
      ∨ (⟨1, 0, 0, none⟩ : Metrics).dominant_limb = some "left"
      ∨ (⟨1, 0, 0, none⟩ : Metrics).dominant_limb = some "right")
    ∧ ((⟨1, 0, 0, none⟩ : Metrics).dominant_limb = none
        ↔ (runLoop none ([none].map FrameEvent.detect) initState).1.totalPoints = 0) :=
  dominant_limb_cases 0 none none [none] ⟨1, 0, 0, none⟩
    (by rw [process_video_detect_eq]; rfl)

/-- C6 witness: a zero-frame video returns `frames_written = 0` and metrics
whose `frames_processed` is that same count. -/
theorem frames_processed_eq_written_witness :
    (process_video true true true 0 none none []).result
        = Except.ok (0, 30, (⟨0, 0, 0, none⟩ : Metrics))
    ∧ (⟨0, 0, 0, none⟩ : Metrics).frames_processed = 0 := by
  have h : (process_video true true true 0 none none []).result
      = Except.ok (0, 30, (⟨0, 0, 0, none⟩ : Metrics)) := by
    simp [process_video, runLoop, outFpsCalc, finalize, initState]
  exact ⟨h, frames_processed_eq_written true true true 0 none none [] 0 30 ⟨0, 0, 0, none⟩ h⟩

/-- C10 witness: the bound `frames_with_pose ≤ frames_processed` at the
metrics of a concrete zero-frame run. -/
theorem pose_le_processed_witness :
    metricsOf (process_video true true true 0 none none []) = some ⟨0, 0, 0, none⟩
    ∧ (⟨0, 0, 0, none⟩ : Metrics).frames_with_pose
        ≤ (⟨0, 0, 0, none⟩ : Metrics).frames_processed := by
  have h : metricsOf (process_video true true true 0 none none []) = some ⟨0, 0, 0, none⟩ := by
    simp [process_video, runLoop, metricsOf, finalize, initState]
  exact ⟨h, pose_le_processed true true true 0 none none [] ⟨0, 0, 0, none⟩ h⟩

end VideoAnalyzer
